import Mathlib

/-!
Verification of the fetch-cache-extract pipeline of `src/marc_handler.py`.

The first half embeds the MARC field-extraction functions (pure functions
over a structured record); the second half embeds the retrieval
orchestrator (`get_marc`, `read_mc`, `__write_to_cache`,
`get_info_from_aleph`) as explicit state passing over a cache/remote
environment.
-/

namespace MarcHandler

/-- Errors raised by the Python extraction code (attribute access on `None`,
indexing an empty list). -/
inductive PyError where
  | attributeError
  | indexError
deriving DecidableEq, Repr

/-- One MARC data field: a tag such as "700" and an ordered list of
(subfield code, value) pairs.  pymarc's `field[c]` returns the first
subfield with code `c` (or `None`), and `c in field` tests presence. -/
structure DataField where
  tag : String
  subfields : List (String × String)
deriving DecidableEq, Repr

/-- A decoded MARC record: an ordered list of data fields; tags may repeat. -/
structure MarcRecord where
  fields : List DataField
deriving DecidableEq, Repr

/-- pymarc `field[code]`: value of the first subfield with this code. -/
def getSubfield (f : DataField) (code : String) : Option String :=
  (f.subfields.find? (fun p => p.1 == code)).map (fun p => p.2)

/-- pymarc `code in field`: whether a subfield with this code is present. -/
def hasSubfield (f : DataField) (code : String) : Bool :=
  f.subfields.any (fun p => p.1 == code)

/-- pymarc `record.get_fields(tag)`: all fields with the tag, in order. -/
def getFields (r : MarcRecord) (tag : String) : List DataField :=
  r.fields.filter (fun f => f.tag == tag)

/-- Embeds `get_system_number`: `record.get_fields('035')[0]['a'].encode(...)`.
Raises IndexError when no 035 field exists and AttributeError when the first
035 field has no subfield `a`. -/
def get_system_number (r : MarcRecord) : Except PyError String :=
  match getFields r "035" with
  | [] => .error .indexError
  | f :: _ =>
    match getSubfield f "a" with
    | none => .error .attributeError
    | some v => .ok v

/-- Loop body of `get_date`: for each 046 field the code evaluates
`field['c'].encode('utf-8')`, raising AttributeError when subfield `c`
is absent, otherwise overwriting the accumulator. -/
def dateLoop : Option String → List DataField → Except PyError (Option String)
  | d, [] => .ok d
  | _, f :: rest =>
    match getSubfield f "c" with
    | none => .error .attributeError
    | some v => dateLoop (some v) rest

/-- Embeds `get_date` over the 046 fields; starts from `None`. -/
def get_date (r : MarcRecord) : Except PyError (Option String) :=
  dateLoop none (getFields r "046")

/-- Python `s.replace(',', '')`: removes every occurrence of the character. -/
def removeAll (c : Char) (s : String) : String :=
  ⟨s.data.filter (fun x => x != c)⟩

/-- The four-field person record produced by `__check_for_gnd`. -/
structure Person where
  GND : String
  name : String
  date : String
  role : String
deriving DecidableEq, Repr

/-- Embeds `__check_for_gnd`: date defaults to "", GND is the sentinel
`no_GND` when the identifier subfield is absent and otherwise the value with
commas removed via `replace(',', '')`, role defaults to "".  Accessing
`marcField['a'].encode(...)` raises when subfield `a` is absent. -/
def check_for_gnd (marcField : DataField) (GNDIndex : String) :
    Except PyError Person :=
  let date := (getSubfield marcField "d").getD ""
  let GND :=
    match getSubfield marcField GNDIndex with
    | none => "no_GND"
    | some v => removeAll ',' v
  let role := (getSubfield marcField "4").getD ""
  match getSubfield marcField "a" with
  | none => .error .attributeError
  | some name => .ok { GND := GND, name := name, date := date, role := role }

/-- The append loops of `get_author` / `get_recipient` /
`get_mentioned_persons` over a list of fields, with GND index `'0'`:
each field is passed to `__check_for_gnd`, and a raised exception
propagates. -/
def personsOf : List DataField → Except PyError (List Person)
  | [] => .ok []
  | f :: rest =>
    match check_for_gnd f "0" with
    | .error e => .error e
    | .ok p =>
      match personsOf rest with
      | .error e => .error e
      | .ok ps => .ok (p :: ps)

/-- Embeds `get_author`: all 100 fields, then the 700 fields whose role is
exactly "aut", in source order. -/
def get_author (r : MarcRecord) : Except PyError (List Person) :=
  match personsOf (getFields r "100") with
  | .error e => .error e
  | .ok ps100 =>
    match personsOf (getFields r "700") with
    | .error e => .error e
    | .ok ps700 => .ok (ps100 ++ ps700.filter (fun p => p.role == "aut"))

/-- Embeds `get_recipient`: the 700 fields whose role is exactly "rcp". -/
def get_recipient (r : MarcRecord) : Except PyError (List Person) :=
  match personsOf (getFields r "700") with
  | .error e => .error e
  | .ok ps700 => .ok (ps700.filter (fun p => p.role == "rcp"))

/-- The incrementally built description dict of `get_description`:
`none` components model keys that are absent from the dict. -/
structure Description where
  title : Option String
  author : Option String
deriving DecidableEq, Repr

/-- One iteration of the `get_description` loop over a 245 field: if
subfield `a` is present a fresh dict with only `title` replaces the
accumulator; then if subfield `c` is present, `author` is merged in (or a
fresh dict created when the accumulator is still `None`). -/
def descStep (d : Option Description) (f : DataField) : Option Description :=
  let d1 :=
    if hasSubfield f "a" then
      some { title := getSubfield f "a", author := none }
    else d
  if hasSubfield f "c" then
    match d1 with
    | some dd => some { dd with author := getSubfield f "c" }
    | none => some { title := none, author := getSubfield f "c" }
  else d1

/-- Embeds `get_description`: fold of `descStep` over the 245 fields. -/
def get_description (r : MarcRecord) : Option Description :=
  (getFields r "245").foldl descStep none

/-- Modelled from the spec: strip only TRAILING separator (comma)
characters from an identifier value — the behaviour the spec (and the
code's own comment) describe for the GND subfield, used to compare with
what `replace(',', '')` actually does. -/
def stripTrailingCommas (s : String) : String :=
  ⟨(s.data.reverse.dropWhile (fun x => x == ',')).reverse⟩

/-! ## The retrieval orchestrator

`read_mc`, `get_marc`, `__write_to_cache`, `__read_mc_from_cache` and the
normal-mode loop of `get_info_from_aleph`, embedded as explicit state
passing.  The cache directory `data/tmp/marc/` becomes an association list
from identifier to raw bytes; `os.path.isfile` becomes a lookup test; the
Z39.50 connection becomes an oracle `remote : String → Option Bytes`
(`none` models `zoom.ConnectionError`); `MARCReader`/`next` become an
opaque total decoder `decode : Bytes → MarcRecord`.  Observable side
effects are tracked in the state: the number of remote connection attempts
and the number of printed connection-failure reports. -/

/-- A raw serialized record, the unit of cache storage. -/
abbrev Bytes := List Nat

/-- The cache directory: identifier to raw bytes; the first entry for a
key is its current content. -/
abbrev Cache := List (String × Bytes)

/-- `os.path.isfile("data/tmp/marc/" + no + ".marc")`. -/
def cacheHas (c : Cache) (no : String) : Bool :=
  (c.lookup no).isSome

/-- The fixed collaborators of one run: the remote catalogue (Z39.50
session; `none` is a connection failure) and the MARC byte decoder. -/
structure Env where
  remote : String → Option Bytes
  decode : Bytes → MarcRecord

/-- The mutable world of one run: the cache directory plus two observable
counters — remote connection attempts made, and connection-failure error
messages printed. -/
structure FetchState where
  cache : Cache
  remoteCalls : Nat
  failLog : Nat
deriving DecidableEq, Repr

/-- The failure branch of `read_mc`: one connection attempt was made, the
error message is printed, nothing else changes. -/
def failStep (st : FetchState) : FetchState :=
  { st with remoteCalls := st.remoteCalls + 1, failLog := st.failLog + 1 }

/-- Embeds `__write_to_cache`: the file is (over)written only when a force
run or a test run is active or no cache entry exists for the identifier. -/
def write_to_cache (force_all is_test : Bool) (st : FetchState)
    (marc : Bytes) (no : String) : FetchState :=
  if force_all || is_test || !cacheHas st.cache no then
    { st with cache := (no, marc) :: st.cache }
  else st

/-- Embeds `read_mc`: open a connection (counted), query the identifier;
on `ConnectionError` print the error and return `None`; on success write
the raw bytes to the cache per the write policy and return the decoded
record. -/
def read_mc (env : Env) (force_all is_test : Bool) (st : FetchState)
    (sys_no : String) : FetchState × Option MarcRecord :=
  match env.remote sys_no with
  | none => (failStep st, none)
  | some data =>
      (write_to_cache force_all is_test
        { st with remoteCalls := st.remoteCalls + 1 } data sys_no,
       some (env.decode data))

/-- Embeds `__read_mc_from_cache`: read the cached bytes and decode them;
no remote call, no state change. -/
def read_mc_from_cache (env : Env) (st : FetchState) (no : String) :
    Option MarcRecord :=
  (st.cache.lookup no).map env.decode

/-- Embeds `get_marc`: force runs always call `read_mc`; otherwise a cache
hit is read and decoded locally; otherwise `read_mc` is called. -/
def get_marc (env : Env) (force_all is_test : Bool) (st : FetchState)
    (no : String) : FetchState × Option MarcRecord :=
  if force_all then read_mc env force_all is_test st no
  else if cacheHas st.cache no then (st, read_mc_from_cache env st no)
  else read_mc env force_all is_test st no

/-- Embeds the normal-mode (`is_test = False`) branch of
`get_info_from_aleph`: iterate the identifier list in order, appending
each `get_marc` result.  The test branch draws one random identifier and
is outside this model. -/
def get_info_from_aleph (env : Env) (force : Bool) :
    FetchState → List String → FetchState × List (Option MarcRecord)
  | st, [] => (st, [])
  | st, no :: rest =>
    let p := get_marc env force false st no
    let q := get_info_from_aleph env force p.1 rest
    (q.1, p.2 :: q.2)

/-! ## Concrete inputs used by witnesses and counterexamples -/

/-- A concrete decoded record used by the concrete environment. -/
def recT : MarcRecord :=
  ⟨[⟨"245", [("a", "T")]⟩]⟩

/-- A concrete environment: identifier "123" is reachable and yields the
bytes `[1, 2, 3]`; every other identifier hits a connection failure; every
byte sequence decodes to `recT`. -/
def envC : Env :=
  { remote := fun s => if s = "123" then some [1, 2, 3] else none,
    decode := fun _ => recT }

/-- The empty starting state: empty cache, no calls, no failures. -/
def st0 : FetchState :=
  { cache := [], remoteCalls := 0, failLog := 0 }

/-- A state whose cache already holds bytes `[9]` for identifier "123". -/
def stCached : FetchState :=
  { cache := [("123", [9])], remoteCalls := 0, failLog := 0 }

/-- A 700 field with role "aut". -/
def fA : DataField := ⟨"700", [("a", "A"), ("4", "aut")]⟩

/-- A 700 field with role "rcp". -/
def fB : DataField := ⟨"700", [("a", "B"), ("4", "rcp")]⟩

/-- A 700 field with no role subfield. -/
def fC : DataField := ⟨"700", [("a", "C")]⟩

/-- A record with three 700 fields: roles "aut", "rcp", and none. -/
def rec6 : MarcRecord := ⟨[fA, fB, fC]⟩

/-- Person extracted from `fA`. -/
def pA : Person := ⟨"no_GND", "A", "", "aut"⟩

/-- Person extracted from `fB`. -/
def pB : Person := ⟨"no_GND", "B", "", "rcp"⟩

/-- Person extracted from `fC`. -/
def pC : Person := ⟨"no_GND", "C", "", ""⟩

/-- First 245 field of the repeated-tag example. -/
def f245a : DataField := ⟨"245", [("a", "T1"), ("c", "C1")]⟩

/-- Second 245 field of the repeated-tag example. -/
def f245b : DataField := ⟨"245", [("a", "T2"), ("c", "C2")]⟩

/-- A record with two 245 fields carrying different subfield values. -/
def rec7d : MarcRecord := ⟨[f245a, f245b]⟩

/-- First 046 field of the repeated-tag example. -/
def f046a : DataField := ⟨"046", [("c", "1701")]⟩

/-- Second 046 field of the repeated-tag example. -/
def f046b : DataField := ⟨"046", [("c", "1702")]⟩

/-- A record with two 046 fields carrying different dates. -/
def rec7e : MarcRecord := ⟨[f046a, f046b]⟩

/-- A record with one 046 field that has no subfield `c`. -/
def rec9 : MarcRecord := ⟨[⟨"046", [("a", "1700")]⟩]⟩

/-! ## Helper lemmas -/

theorem write_to_cache_remoteCalls (f t : Bool) (st : FetchState) (b : Bytes)
    (no : String) :
    (write_to_cache f t st b no).remoteCalls = st.remoteCalls := by
  unfold write_to_cache; split <;> rfl

theorem write_to_cache_true_lookup (t : Bool) (st : FetchState) (b : Bytes)
    (no : String) :
    (write_to_cache true t st b no).cache.lookup no = some b := by
  simp [write_to_cache, List.lookup]

theorem write_to_cache_miss_lookup (f t : Bool) (st : FetchState) (b : Bytes)
    (no : String) (h : cacheHas st.cache no = false) :
    (write_to_cache f t st b no).cache.lookup no = some b := by
  simp [write_to_cache, h, List.lookup]

theorem get_marc_force (env : Env) (t : Bool) (st : FetchState) (no : String) :
    get_marc env true t st no = read_mc env true t st no := rfl

theorem read_mc_fail (env : Env) (f t : Bool) (st : FetchState) (no : String)
    (h : env.remote no = none) :
    read_mc env f t st no = (failStep st, none) := by
  simp [read_mc, h]

theorem read_mc_ok (env : Env) (f t : Bool) (st : FetchState) (no : String)
    (b : Bytes) (h : env.remote no = some b) :
    read_mc env f t st no =
      (write_to_cache f t { st with remoteCalls := st.remoteCalls + 1 } b no,
       some (env.decode b)) := by
  simp [read_mc, h]

theorem get_marc_cache_hit (env : Env) (t : Bool) (st : FetchState)
    (no : String) (h : cacheHas st.cache no = true) :
    get_marc env false t st no = (st, (st.cache.lookup no).map env.decode) := by
  simp [get_marc, h, read_mc_from_cache]

theorem get_marc_miss (env : Env) (t : Bool) (st : FetchState) (no : String)
    (h : cacheHas st.cache no = false) :
    get_marc env false t st no = read_mc env false t st no := by
  simp [get_marc, h]

theorem get_marc_conn_fail (env : Env) (t : Bool) (st : FetchState)
    (no : String) (h1 : env.remote no = none) (h2 : cacheHas st.cache no = false) :
    get_marc env false t st no = (failStep st, none) := by
  rw [get_marc_miss env t st no h2, read_mc_fail env false t st no h1]

theorem get_info_nil (env : Env) (force : Bool) (st : FetchState) :
    get_info_from_aleph env force st [] = (st, []) := rfl

theorem get_info_cons (env : Env) (force : Bool) (st : FetchState)
    (no : String) (rest : List String) :
    get_info_from_aleph env force st (no :: rest) =
      ((get_info_from_aleph env force (get_marc env force false st no).1 rest).1,
       (get_marc env force false st no).2 ::
         (get_info_from_aleph env force
           (get_marc env force false st no).1 rest).2) := rfl

theorem get_info_length (env : Env) (force : Bool) :
    ∀ (nos : List String) (st : FetchState),
      (get_info_from_aleph env force st nos).2.length = nos.length
  | [], _ => rfl
  | no :: rest, st => by
    rw [get_info_cons]
    simp [get_info_length env force rest]

theorem get_info_append (env : Env) (force : Bool) :
    ∀ (xs : List String) (st : FetchState) (ys : List String),
      get_info_from_aleph env force st (xs ++ ys) =
        ((get_info_from_aleph env force
            (get_info_from_aleph env force st xs).1 ys).1,
         (get_info_from_aleph env force st xs).2 ++
           (get_info_from_aleph env force
             (get_info_from_aleph env force st xs).1 ys).2)
  | [], st, ys => by simp [get_info_nil]
  | x :: xs, st, ys => by
    simp only [List.cons_append, get_info_cons,
      get_info_append env force xs]

theorem get_info_fail_slot (env : Env) (st : FetchState) (pre post : List String)
    (no : String) (h1 : env.remote no = none)
    (h2 : cacheHas (get_info_from_aleph env false st pre).1.cache no = false) :
    get_info_from_aleph env false st (pre ++ no :: post) =
      ((get_info_from_aleph env false
          (failStep (get_info_from_aleph env false st pre).1) post).1,
       (get_info_from_aleph env false st pre).2 ++
         none :: (get_info_from_aleph env false
           (failStep (get_info_from_aleph env false st pre).1) post).2) := by
  rw [get_info_append env false pre st (no :: post), get_info_cons,
    get_marc_conn_fail env false _ no h1 h2]

/-! ## Claim theorems -/

/-- Claim C1: the per-identifier fetch `get_marc` dispatches as specified:
under force mode it always issues a remote call (and returns the decoded
fetched record on success); otherwise a cache hit is answered from the
cached bytes with no remote call and no state change; otherwise a remote
call is issued and, on success, the raw bytes are written to the cache and
the decoded record returned. -/
theorem C1_fetch_dispatch (env : Env) (t : Bool) (st : FetchState) (no : String) :
    ((get_marc env true t st no).1.remoteCalls = st.remoteCalls + 1 ∧
      ∀ b : Bytes, env.remote no = some b →
        (get_marc env true t st no).2 = some (env.decode b)) ∧
    (cacheHas st.cache no = true →
      get_marc env false t st no = (st, (st.cache.lookup no).map env.decode)) ∧
    (cacheHas st.cache no = false →
      (get_marc env false t st no).1.remoteCalls = st.remoteCalls + 1 ∧
      ∀ b : Bytes, env.remote no = some b →
        (get_marc env false t st no).1.cache.lookup no = some b ∧
        (get_marc env false t st no).2 = some (env.decode b)) := by
  refine ⟨⟨?_, ?_⟩, ?_, ?_⟩
  · cases h : env.remote no with
    | none => rw [get_marc_force, read_mc_fail env true t st no h]; rfl
    | some b =>
      rw [get_marc_force, read_mc_ok env true t st no b h]
      exact write_to_cache_remoteCalls true t _ b no
  · intro b h
    rw [get_marc_force, read_mc_ok env true t st no b h]
  · intro h
    exact get_marc_cache_hit env t st no h
  · intro h
    constructor
    · cases hr : env.remote no with
      | none => rw [get_marc_miss env t st no h, read_mc_fail env false t st no hr]; rfl
      | some b =>
        rw [get_marc_miss env t st no h, read_mc_ok env false t st no b hr]
        exact write_to_cache_remoteCalls false t _ b no
    · intro b hb
      rw [get_marc_miss env t st no h, read_mc_ok env false t st no b hb]
      exact ⟨write_to_cache_miss_lookup false t _ b no h, rfl⟩

/-- Witness for C1 at concrete inputs: a cache hit for "123" on a state
that caches it, and a cache miss on the empty state with a reachable
remote. -/
theorem C1_fetch_dispatch_witness :
    (cacheHas stCached.cache "123" = true ∧
      get_marc envC false false stCached "123" =
        (stCached, (stCached.cache.lookup "123").map envC.decode)) ∧
    (cacheHas st0.cache "123" = false ∧
      envC.remote "123" = some [1, 2, 3] ∧
      (get_marc envC false false st0 "123").1.cache.lookup "123" =
        some [1, 2, 3] ∧
      (get_marc envC false false st0 "123").2 = some (envC.decode [1, 2, 3])) :=
  ⟨⟨rfl, (C1_fetch_dispatch envC false stCached "123").2.1 rfl⟩,
   ⟨rfl, rfl, ((C1_fetch_dispatch envC false st0 "123").2.2 rfl).2 [1, 2, 3] rfl⟩⟩

/-- Claim C2 as stated is false: the failed identifier's slot is NOT
omitted.  Over `["123", "456"]` with "456" unreachable, the batch returns
TWO elements — the record for "123" and a `none` placeholder for "456" —
not "exactly one result". -/
theorem C2_slot_not_omitted :
    (get_info_from_aleph envC false st0 ["123", "456"]).2 =
      [some (envC.decode [1, 2, 3]), none] ∧
    (get_info_from_aleph envC false st0 ["123", "456"]).2.length ≠ 1 :=
  ⟨rfl, by decide⟩

/-- Claim C2 (amended): when the remote session fails for an uncached
identifier in normal mode, the failure is reported (the failure counter of
`failStep` is incremented), the batch continues with the remaining
identifiers, and the failed identifier's slot holds a `none` placeholder
in the result sequence rather than being omitted. -/
theorem C2_failure_placeholder (env : Env) (st : FetchState)
    (pre post : List String) (no : String)
    (h1 : env.remote no = none)
    (h2 : cacheHas (get_info_from_aleph env false st pre).1.cache no = false) :
    get_info_from_aleph env false st (pre ++ no :: post) =
      ((get_info_from_aleph env false
          (failStep (get_info_from_aleph env false st pre).1) post).1,
       (get_info_from_aleph env false st pre).2 ++
         none :: (get_info_from_aleph env false
           (failStep (get_info_from_aleph env false st pre).1) post).2) :=
  get_info_fail_slot env st pre post no h1 h2

/-- Witness for the amended C2: batch `["123", "456"]` with "456"
unreachable. -/
theorem C2_failure_placeholder_witness :
    envC.remote "456" = none ∧
    cacheHas (get_info_from_aleph envC false st0 ["123"]).1.cache "456" = false ∧
    get_info_from_aleph envC false st0 (["123"] ++ "456" :: []) =
      ((get_info_from_aleph envC false
          (failStep (get_info_from_aleph envC false st0 ["123"]).1) []).1,
       (get_info_from_aleph envC false st0 ["123"]).2 ++
         none :: (get_info_from_aleph envC false
           (failStep (get_info_from_aleph envC false st0 ["123"]).1) []).2) :=
  ⟨rfl, rfl, C2_failure_placeholder envC st0 ["123"] [] "456" rfl rfl⟩

/-- Claim C3: a cache write happens only under a forced run, a test run,
or when no cached entry exists; in particular a normal-mode fetch of an
already-cached identifier leaves the whole state — hence the cached
bytes — unchanged. -/
theorem C3_write_gating :
    (∀ (f t : Bool) (st : FetchState) (b : Bytes) (no : String),
      write_to_cache f t st b no ≠ st →
      f = true ∨ t = true ∨ cacheHas st.cache no = false) ∧
    (∀ (env : Env) (st : FetchState) (no : String),
      cacheHas st.cache no = true →
      (get_marc env false false st no).1 = st) := by
  constructor
  · intro f t st b no hne
    cases f with
    | true => exact Or.inl rfl
    | false =>
      cases t with
      | true => exact Or.inr (Or.inl rfl)
      | false =>
        cases hcc : cacheHas st.cache no with
        | false => exact Or.inr (Or.inr rfl)
        | true => exact absurd (by simp [write_to_cache, hcc]) hne
  · intro env st no h
    rw [get_marc_cache_hit env false st no h]

/-- Witness for C3: a write to the empty cache does change the state (and
no force/test flag is set, so the entry was absent), and a normal-mode
fetch of the cached "123" leaves the state unchanged. -/
theorem C3_write_gating_witness :
    (write_to_cache false false st0 [1] "x" ≠ st0 ∧
      (false = true ∨ false = true ∨ cacheHas st0.cache "x" = false)) ∧
    (cacheHas stCached.cache "123" = true ∧
      (get_marc envC false false stCached "123").1 = stCached) :=
  ⟨⟨by decide, C3_write_gating.1 false false st0 [1] "x" (by decide)⟩,
   ⟨rfl, C3_write_gating.2 envC stCached "123" rfl⟩⟩

/-- Claim C4: for an identifier whose raw bytes are cached, a non-forced
fetch returns the decode of exactly those cached bytes, performs no remote
call, leaves the state unchanged, and repeating the fetch yields the
identical result. -/
theorem C4_cached_idempotent (env : Env) (t : Bool) (st : FetchState)
    (no : String) (b : Bytes) (h : st.cache.lookup no = some b) :
    get_marc env false t st no = (st, some (env.decode b)) ∧
    (get_marc env false t st no).1.remoteCalls = st.remoteCalls ∧
    get_marc env false t (get_marc env false t st no).1 no =
      get_marc env false t st no := by
  have hh : cacheHas st.cache no = true := by simp [cacheHas, h]
  have e : get_marc env false t st no = (st, some (env.decode b)) := by
    rw [get_marc_cache_hit env t st no hh, h]; rfl
  exact ⟨e, by rw [e], by rw [e]; exact e⟩

/-- Witness for C4 at the cached identifier "123". -/
theorem C4_cached_idempotent_witness :
    stCached.cache.lookup "123" = some [9] ∧
    get_marc envC false false stCached "123" =
      (stCached, some (envC.decode [9])) ∧
    (get_marc envC false false stCached "123").1.remoteCalls =
      stCached.remoteCalls ∧
    get_marc envC false false
        (get_marc envC false false stCached "123").1 "123" =
      get_marc envC false false stCached "123" :=
  ⟨rfl, C4_cached_idempotent envC false stCached "123" [9] rfl⟩

/-- Claim C5: a forced fetch always issues a remote call, and when the
remote returns bytes it overwrites the identifier's cache entry with the
freshly fetched bytes — over any prior cache content — and returns their
decode. -/
theorem C5_force_override (env : Env) (t : Bool) (st : FetchState)
    (no : String) :
    (get_marc env true t st no).1.remoteCalls = st.remoteCalls + 1 ∧
    ∀ b : Bytes, env.remote no = some b →
      (get_marc env true t st no).1.cache.lookup no = some b ∧
      (get_marc env true t st no).2 = some (env.decode b) := by
  constructor
  · cases h : env.remote no with
    | none => rw [get_marc_force, read_mc_fail env true t st no h]; rfl
    | some b =>
      rw [get_marc_force, read_mc_ok env true t st no b h]
      exact write_to_cache_remoteCalls true t _ b no
  · intro b h
    rw [get_marc_force, read_mc_ok env true t st no b h]
    exact ⟨write_to_cache_true_lookup t _ b no, rfl⟩

/-- Witness for C5: a forced fetch of "123" on a state that already caches
the different bytes `[9]` makes one remote call and replaces the entry
with the fetched `[1, 2, 3]`. -/
theorem C5_force_override_witness :
    envC.remote "123" = some [1, 2, 3] ∧
    (get_marc envC true false stCached "123").1.remoteCalls =
      stCached.remoteCalls + 1 ∧
    (get_marc envC true false stCached "123").1.cache.lookup "123" =
      some [1, 2, 3] ∧
    (get_marc envC true false stCached "123").2 =
      some (envC.decode [1, 2, 3]) :=
  ⟨rfl, (C5_force_override envC false stCached "123").1,
   (C5_force_override envC false stCached "123").2 [1, 2, 3] rfl⟩

/-- Claim C6: among the shared person tag 700, occurrences with role "aut"
go exactly to the author list (after the 100 entries, in source order),
occurrences with role "rcp" go exactly to the recipient list, the two
700-drawn lists are disjoint, and an occurrence with neither role appears
in neither. -/
theorem C6_role_routing (r : MarcRecord) (ps100 ps700 : List Person)
    (h100 : personsOf (getFields r "100") = .ok ps100)
    (h700 : personsOf (getFields r "700") = .ok ps700) :
    get_author r = .ok (ps100 ++ ps700.filter (fun p => p.role == "aut")) ∧
    get_recipient r = .ok (ps700.filter (fun p => p.role == "rcp")) ∧
    (∀ p ∈ ps700.filter (fun q => q.role == "aut"),
      p ∉ ps700.filter (fun q => q.role == "rcp")) ∧
    (∀ p ∈ ps700, p.role ≠ "aut" → p.role ≠ "rcp" →
      p ∉ ps700.filter (fun q => q.role == "aut") ∧
      p ∉ ps700.filter (fun q => q.role == "rcp")) := by
  refine ⟨?_, ?_, ?_, ?_⟩
  · simp [get_author, h100, h700]
  · simp [get_recipient, h700]
  · intro p hp
    simp only [List.mem_filter, beq_iff_eq] at hp ⊢
    rintro ⟨-, hr⟩
    rw [hp.2] at hr
    exact absurd hr (by decide)
  · intro p _ ha hr
    constructor <;> simp [List.mem_filter, ha, hr]

/-- Witness for C6 on a record with three 700 fields of roles "aut",
"rcp", and none. -/
theorem C6_role_routing_witness :
    personsOf (getFields rec6 "100") = .ok [] ∧
    personsOf (getFields rec6 "700") = .ok [pA, pB, pC] ∧
    (get_author rec6 =
        .ok ([] ++ [pA, pB, pC].filter (fun p => p.role == "aut")) ∧
      get_recipient rec6 =
        .ok ([pA, pB, pC].filter (fun p => p.role == "rcp")) ∧
      (∀ p ∈ [pA, pB, pC].filter (fun q => q.role == "aut"),
        p ∉ [pA, pB, pC].filter (fun q => q.role == "rcp")) ∧
      (∀ p ∈ [pA, pB, pC], p.role ≠ "aut" → p.role ≠ "rcp" →
        p ∉ [pA, pB, pC].filter (fun q => q.role == "aut") ∧
        p ∉ [pA, pB, pC].filter (fun q => q.role == "rcp"))) :=
  ⟨rfl, rfl, C6_role_routing rec6 [] [pA, pB, pC] rfl rfl⟩

/-- Claim C7: when the single-occurrence description tag 245 (resp. date
tag 046) appears twice with different subfield values, the extractor's
output reflects only the later occurrence: `get_description` yields the
second field's title/author regardless of the first, and `get_date` yields
the second field's date. -/
theorem C7_last_occurrence_wins :
    (∀ (r : MarcRecord) (f1 f2 : DataField),
      getFields r "245" = [f1, f2] →
      hasSubfield f2 "a" = true → hasSubfield f2 "c" = true →
      getSubfield f1 "a" ≠ getSubfield f2 "a" →
      get_description r =
        some { title := getSubfield f2 "a", author := getSubfield f2 "c" }) ∧
    (∀ (r : MarcRecord) (f1 f2 : DataField) (v1 v2 : String),
      getFields r "046" = [f1, f2] →
      getSubfield f1 "c" = some v1 → getSubfield f2 "c" = some v2 →
      v1 ≠ v2 →
      get_date r = .ok (some v2)) := by
  constructor
  · intro r f1 f2 h ha hc _
    unfold get_description
    rw [h]
    simp [List.foldl, descStep, ha, hc]
  · intro r f1 f2 v1 v2 h h1 h2 _
    unfold get_date
    rw [h]
    simp [dateLoop, h1, h2]

/-- Witness for C7 at records with two 245 fields and two 046 fields. -/
theorem C7_last_occurrence_wins_witness :
    (getFields rec7d "245" = [f245a, f245b] ∧
      hasSubfield f245b "a" = true ∧ hasSubfield f245b "c" = true ∧
      getSubfield f245a "a" ≠ getSubfield f245b "a" ∧
      get_description rec7d =
        some { title := getSubfield f245b "a",
               author := getSubfield f245b "c" }) ∧
    (getFields rec7e "046" = [f046a, f046b] ∧
      getSubfield f046a "c" = some "1701" ∧
      getSubfield f046b "c" = some "1702" ∧
      ("1701" : String) ≠ "1702" ∧
      get_date rec7e = .ok (some "1702")) :=
  ⟨⟨rfl, rfl, rfl, by decide,
    C7_last_occurrence_wins.1 rec7d f245a f245b rfl rfl rfl (by decide)⟩,
   ⟨rfl, rfl, rfl, by decide,
    C7_last_occurrence_wins.2 rec7e f046a f046b "1701" "1702" rfl rfl rfl
      (by decide)⟩⟩

/-- Claim C8 is right and the code wrong: the code's own comment says "get
rid of trailing comma" but `replace(',', '')` removes EVERY comma.  On a
GND value "a,b," the code yields "ab", while stripping only trailing
separators — what the spec and the comment describe — yields "a,b". -/
theorem C8_comma_stripping_bug :
    check_for_gnd ⟨"700", [("0", "a,b,"), ("a", "N")]⟩ "0" =
      .ok { GND := "ab", name := "N", date := "", role := "" } ∧
    stripTrailingCommas "a,b," = "a,b" ∧
    removeAll ',' "a,b," ≠ stripTrailingCommas "a,b," :=
  ⟨rfl, rfl, by decide⟩

/-- Claim C9 as stated is false: a present 046 field with no subfield `c`
makes `get_date` raise AttributeError, and a record with no 035 field
makes `get_system_number` raise IndexError — expected-subfield or field
absence is not uniformly exception-free. -/
theorem C9_missing_subfield_raises :
    get_date rec9 = .error .attributeError ∧
    get_system_number ⟨[]⟩ = .error .indexError :=
  ⟨rfl, rfl⟩

/-- Claim C9 (amended): absence of the optional field (tag) itself yields
an empty/absent result without exception for the extractors, and a 245
field missing both subfields contributes nothing; but absence of an
expected subfield within a present field raises in `get_date` (046 without
`c`) and in person sub-extraction (no name subfield `a`), and
`get_system_number` raises when no 035 field exists at all. -/
theorem C9_absence_behavior :
    (∀ r : MarcRecord, getFields r "046" = [] → get_date r = .ok none) ∧
    (∀ r : MarcRecord, getFields r "245" = [] → get_description r = none) ∧
    (∀ r : MarcRecord, getFields r "100" = [] → getFields r "700" = [] →
      get_author r = .ok [] ∧ get_recipient r = .ok []) ∧
    (∀ (f : DataField) (d : Option Description),
      hasSubfield f "a" = false → hasSubfield f "c" = false →
      descStep d f = d) ∧
    (∀ (r : MarcRecord) (f : DataField), getFields r "046" = [f] →
      getSubfield f "c" = none → get_date r = .error .attributeError) ∧
    (∀ (f : DataField) (GNDIndex : String), getSubfield f "a" = none →
      check_for_gnd f GNDIndex = .error .attributeError) ∧
    (∀ r : MarcRecord, getFields r "035" = [] →
      get_system_number r = .error .indexError) := by
  refine ⟨?_, ?_, ?_, ?_, ?_, ?_, ?_⟩
  · intro r h; unfold get_date; rw [h]; rfl
  · intro r h; unfold get_description; rw [h]; rfl
  · intro r h1 h2
    exact ⟨by simp [get_author, h1, h2, personsOf],
           by simp [get_recipient, h2, personsOf]⟩
  · intro f d ha hc; simp [descStep, ha, hc]
  · intro r f h hc; unfold get_date; rw [h]; simp [dateLoop, hc]
  · intro f gi h; simp [check_for_gnd, h]
  · intro r h; unfold get_system_number; rw [h]

/-- Witness for the amended C9: a record with no 046 field yields `None`,
and the 046-without-`c` record raises. -/
theorem C9_absence_behavior_witness :
    getFields recT "046" = [] ∧ get_date recT = .ok none ∧
    getFields rec9 "046" = [(⟨"046", [("a", "1700")]⟩ : DataField)] ∧
    getSubfield (⟨"046", [("a", "1700")]⟩ : DataField) "c" = none ∧
    get_date rec9 = .error .attributeError :=
  ⟨rfl, C9_absence_behavior.1 recT rfl, rfl, rfl,
   C9_absence_behavior.2.2.2.2.1 rec9 ⟨"046", [("a", "1700")]⟩ rfl rfl⟩

/-- Claim C10: the normal-mode batch returns exactly one element per input
identifier in input order, and when the remote fetch of an uncached
identifier fails, that identifier's slot holds a `none` placeholder
between the results for the preceding and following identifiers. -/
theorem C10_batch_shape :
    (∀ (env : Env) (force : Bool) (st : FetchState) (nos : List String),
      (get_info_from_aleph env force st nos).2.length = nos.length) ∧
    (∀ (env : Env) (st : FetchState) (pre post : List String) (no : String),
      env.remote no = none →
      cacheHas (get_info_from_aleph env false st pre).1.cache no = false →
      (get_info_from_aleph env false st (pre ++ no :: post)).2 =
        (get_info_from_aleph env false st pre).2 ++
          none :: (get_info_from_aleph env false
            (failStep (get_info_from_aleph env false st pre).1) post).2) := by
  constructor
  · intro env force st nos
    exact get_info_length env force nos st
  · intro env st pre post no h1 h2
    rw [get_info_fail_slot env st pre post no h1 h2]

/-- Witness for C10: a failing fetch of "456" as the first identifier,
followed by a successful "123". -/
theorem C10_batch_shape_witness :
    (get_info_from_aleph envC false st0 ["123", "456"]).2.length = 2 ∧
    envC.remote "456" = none ∧
    cacheHas (get_info_from_aleph envC false st0 []).1.cache "456" = false ∧
    (get_info_from_aleph envC false st0 ([] ++ "456" :: ["123"])).2 =
      (get_info_from_aleph envC false st0 []).2 ++
        none :: (get_info_from_aleph envC false
          (failStep (get_info_from_aleph envC false st0 []).1) ["123"]).2 :=
  ⟨C10_batch_shape.1 envC false st0 ["123", "456"], rfl, rfl,
   C10_batch_shape.2 envC st0 [] ["123"] "456" rfl rfl⟩

end MarcHandler
